import Mathlib

/-!
Verification development for the bilibili-service repository.

The repository's core logic lives in parse_dash.py:
  - _select_best  : pick the highest-bandwidth representation,
  - _rep_to_urls  : resolve a representation to a list of segment URLs,
  - parse_dash    : download, concatenate and mux the selected tracks,
and in spider.py:
  - getMediaData  : the two-URL fast-path driver.

Python values flowing through this code are dynamically typed JSON-like
dicts, so we embed them as a `PyVal` type with Python truthiness, dict
`.get` access, the truthiness-based `or` operator, and iteration.
Side-effecting operations (HTTP downloads, ffmpeg subprocess calls,
temp-directory management) are modelled by an explicit event trace and an
oracle (`World`) giving the exit status of each external process call.
-/

/-- A dynamically typed Python/JSON value: None, str, int, list or dict.
Floats, bools and other object types do not occur in the modelled code
paths. Dicts are association lists; Python dict keys are unique, and
lookup takes the first binding. -/
inductive PyVal where
  | none
  | str (s : String)
  | int (n : Int)
  | list (xs : List PyVal)
  | dict (kvs : List (String × PyVal))

/-- Association-list lookup with a default, modelling `d.get(key, default)`. -/
def dictGetD : List (String × PyVal) → String → PyVal → PyVal
  | [], _, dflt => dflt
  | (k, v) :: rest, key, dflt => if k = key then v else dictGetD rest key dflt

/-- Python truthiness: None, "" , 0, [] and \x7b\x7d are falsy. -/
def truthy : PyVal → Bool
  | .none => false
  | .str s => !s.isEmpty
  | .int n => n != 0
  | .list xs => !xs.isEmpty
  | .dict kvs => !kvs.isEmpty

/-- Python `d.get(key)`: missing keys give None. Calling `.get` on a
non-dict raises AttributeError in Python; that region is not exercised by
the modelled code (all `.get` receivers are dicts there), and we return
None for it. -/
def pyGet (v : PyVal) (key : String) : PyVal :=
  match v with
  | .dict kvs => dictGetD kvs key .none
  | _ => .none

/-- Python `d.get(key, default)`. -/
def pyGetD (v : PyVal) (key : String) (dflt : PyVal) : PyVal :=
  match v with
  | .dict kvs => dictGetD kvs key dflt
  | _ => dflt

/-- Python `a or b`: `a` if truthy, else `b`. -/
def pyOr (a b : PyVal) : PyVal :=
  if truthy a then a else b

/-- Python iteration `for x in v`: lists yield elements, strings yield
one-character strings, dicts yield their keys. Iterating None or an int
raises TypeError in Python; that region is not exercised by the claims,
and we yield nothing for it. -/
def pyIter : PyVal → List PyVal
  | .list xs => xs
  | .str s => s.data.map (fun c => PyVal.str (String.mk [c]))
  | .dict kvs => kvs.map (fun kv => PyVal.str kv.1)
  | _ => []

/-- Python `int(v)` on the values reaching `_select_best`'s key function:
identity on ints, string parsing on numeric strings. Python raises on
non-numeric input; theorems about bandwidth selection restrict to int
bandwidth values, where this model is exact. -/
def pyInt : PyVal → Int
  | .int n => n
  | .str s => s.toInt?.getD 0
  | _ => 0

/-- Errors raised by parse_dash.py. `calledProcessError` is
`subprocess.CalledProcessError`, raised by `subprocess.check_call` when an
ffmpeg invocation exits non-zero; the spec calls the one escaping from the
mux call `MuxError`. `valueError` covers the input-validation failures the
spec calls `EmptyInputError` / `InvalidInputError`; `runtimeError` is the
spec's `AssemblyError`. -/
inductive PyError where
  | valueError (msg : String)
  | calledProcessError
  | runtimeError (msg : String)

/-- Python `r.get("bandwidth") is not None` from `_select_best`. -/
def hasBw (r : PyVal) : Bool :=
  match pyGet r "bandwidth" with
  | .none => false
  | _ => true

/-- The key `int(r.get("bandwidth", 0))` used by `max` in `_select_best`. -/
def bwKey (r : PyVal) : Int :=
  pyInt (pyGetD r "bandwidth" (.int 0))

/-- Python `max(x :: xs, key)`: fold keeping the current element unless a
strictly larger key appears, so the first maximum wins ties. -/
def pyMax (key : PyVal → Int) (x : PyVal) (xs : List PyVal) : PyVal :=
  xs.foldl (fun acc r => if key acc < key r then r else acc) x

/-- `_select_best` from parse_dash.py lines 52-61: raise ValueError on an
empty list; if some entries carry a non-None bandwidth, take the max of
those by `int(bandwidth)`; otherwise return the first entry. -/
def _select_best (rep_list : List PyVal) : Except PyError PyVal :=
  if rep_list.isEmpty then .error (.valueError "No representations available")
  else
    match rep_list.filter hasBw with
    | [] => .ok (rep_list.headD .none)
    | x :: xs => .ok (pyMax bwKey x xs)

/-- Normalization of one segment-list entry, from the loop body at
parse_dash.py lines 90-96: a dict yields `media or url or baseUrl` when
that is truthy, a plain string yields itself, anything else is skipped. -/
def entryUrl (s : PyVal) : Option PyVal :=
  match s with
  | .dict _ =>
    let url := pyOr (pyGet s "media") (pyOr (pyGet s "url") (pyGet s "baseUrl"))
    if truthy url then some url else Option.none
  | .str t => some (.str t)
  | _ => Option.none

/-- Normalization of one `baseUrls` entry, parse_dash.py lines 99-103. -/
def baseUrlsEntry (e : PyVal) : Option PyVal :=
  match e with
  | .dict _ => if truthy (pyGet e "baseUrl") then some (pyGet e "baseUrl") else Option.none
  | .str t => some (.str t)
  | _ => Option.none

/-- The chained lookup
`rep.get("SegmentList") or rep.get("segmentList") or rep.get("segments") or rep.get("segment")`
from parse_dash.py line 82. -/
def seglistOf (rep : PyVal) : PyVal :=
  pyOr (pyGet rep "SegmentList")
    (pyOr (pyGet rep "segmentList")
      (pyOr (pyGet rep "segments") (pyGet rep "segment")))

/-- parse_dash.py lines 85-88: a dict-shaped segment list holds its entry
array under `SegmentURL` / `segmentURL` / `segments`; anything else is the
candidate array itself. -/
def segCandidates (seglist : PyVal) : PyVal :=
  match seglist with
  | .dict kvs =>
    pyOr (pyGet (.dict kvs) "SegmentURL")
      (pyOr (pyGet (.dict kvs) "segmentURL") (pyGet (.dict kvs) "segments"))
  | v => v

/-- The segment-list and `baseUrls` handling of `_rep_to_urls`
(parse_dash.py lines 82-105), reached when there is no truthy `baseUrl`. -/
def segListUrls (rep : PyVal) : List PyVal :=
  let seglist := seglistOf rep
  let urls : List PyVal :=
    if truthy seglist then
      let candidates := segCandidates seglist
      if truthy candidates then (pyIter candidates).filterMap entryUrl else []
    else []
  if urls.isEmpty && truthy (pyGet rep "baseUrls") then
    (pyIter (pyGet rep "baseUrls")).filterMap baseUrlsEntry
  else urls

/-- `_rep_to_urls` from parse_dash.py lines 64-105: empty for a falsy rep;
a truthy `baseUrl` short-circuits to a single URL; otherwise segment-list
resolution with the `baseUrls` fallback. -/
def _rep_to_urls (rep : PyVal) : List PyVal :=
  if truthy rep = false then []
  else if truthy (pyGet rep "baseUrl") then [pyGet rep "baseUrl"]
  else segListUrls rep

example : _rep_to_urls (.dict [("baseUrl", .str "u"), ("segments", .list [.str "a"])]) = [.str "u"] := rfl

example : _rep_to_urls (.dict [("segments", .list [.str "a", .dict [("url", .str "b")]])]) = [.str "a", .str "b"] := rfl

example : _select_best [.dict [("bandwidth", .int 3)], .dict [("bandwidth", .int 7)]] = .ok (.dict [("bandwidth", .int 7)]) := rfl

/-- Observable effects of one `parse_dash` invocation, in program order:
`makedirs` is `os.makedirs(out_dir, exist_ok=True)`; `download` is one
`_download(url, dst)` call (the only network traffic); `writeList` writes
the ffmpeg concat list file; `concat` is the `ffmpeg -f concat` subprocess
call; `mux` is the two-input `ffmpeg -i v -i a -c copy out` subprocess
call (the `-y` flag makes it overwrite `out` if it exists); `move` is
`shutil.move`; `rmtree` is the `shutil.rmtree(tmpdir)` cleanup. -/
inductive Event where
  | makedirs (dir : String)
  | download (url : PyVal) (dst : String)
  | writeList (path : String)
  | concat (listfile joined : String)
  | mux (vfile afile out : String)
  | move (src dst : String)
  | rmtree (dir : String)

def Event.isDownload : Event → Bool
  | .download _ _ => true
  | _ => false

def Event.isConcat : Event → Bool
  | .concat _ _ => true
  | _ => false

def Event.isMux : Event → Bool
  | .mux _ _ _ => true
  | _ => false

/-- External state and process oracle for one `parse_dash` invocation:
`concatOk i` is whether the i-th `ffmpeg -f concat` call of the invocation
exits 0; `muxOk` is whether the (at most one) two-input mux call exits 0;
`outputExists` records whether the final output file already exists at the
configured output path when the invocation starts. Downloads are taken to
succeed (the claims do not exercise `DownloadError` paths), and
`shutil.rmtree` is taken to succeed (the code swallows its failures). -/
structure World where
  concatOk : Nat → Bool
  muxOk : Bool
  outputExists : Bool

/-- Outcome of one `parse_dash` invocation: the returned path or raised
error, the event trace, whether the temp WorkArea was ever created, and
whether it still exists after the call returns. -/
structure RunResult where
  result : Except PyError String
  events : List Event
  tmpCreated : Bool
  tmpExists : Bool

/-- Zero-padded index from the Python format `f"...part{i:03d}"`. -/
def pad3 (i : Nat) : String :=
  let s := toString i
  if s.length ≥ 3 then s else String.mk (List.replicate (3 - s.length) (Char.ofNat 48)) ++ s

/-- Path of the i-th downloaded part of a track, parse_dash.py line 180. -/
def partName (tmpdir out_name : String) (i : Nat) : String :=
  tmpdir ++ "/" ++ out_name ++ "_part" ++ pad3 i

/-- The per-segment download loop of `_download_join`, parse_dash.py
lines 178-183: one download event per URL, in list order, to zero-padded
indexed part files. -/
def downloadEvents (tmpdir out_name : String) (urls : List PyVal) : List Event :=
  urls.enum.map (fun p => Event.download p.2 (partName tmpdir out_name p.1))

/-- `_download_join` from parse_dash.py lines 177-196: download every URL,
write the concat list file, run `ffmpeg -f concat`; on success the joined
file is the result, on `CalledProcessError` the first downloaded part is
returned instead (no error propagates). Callers only invoke it on
non-empty URL lists, so `parts[0]` exists. -/
def _download_join (concatOk : Bool) (tmpdir out_name : String) (urls : List PyVal) : String × List Event :=
  let listfile := tmpdir ++ "/" ++ out_name ++ "_list.txt"
  let joined := tmpdir ++ "/" ++ out_name ++ "_joined.mp4"
  let evs := downloadEvents tmpdir out_name urls ++ [Event.writeList listfile, Event.concat listfile joined]
  ((if concatOk then joined else partName tmpdir out_name 0), evs)

/-- `dash.get("video") or dash.get("videos")` plus the defensive (dead)
re-check of parse_dash.py lines 129, 133-134. -/
def videoReps (dash : PyVal) : PyVal :=
  let vr := pyOr (pyGet dash "video") (pyGet dash "videos")
  if truthy vr = false && truthy (pyGet dash "videos") then pyGet dash "videos" else vr

/-- `dash.get("audio") or dash.get("audios")` plus the defensive (dead)
re-check of parse_dash.py lines 130, 135-136. -/
def audioReps (dash : PyVal) : PyVal :=
  let ar := pyOr (pyGet dash "audio") (pyGet dash "audios")
  if truthy ar = false && truthy (pyGet dash "audios") then pyGet dash "audios" else ar

/-- The output path `os.path.abspath(os.path.join(out_dir, output_name))`
with `output_name = output_name or f"{bvid}_new.mp4"`; path joining is
modelled as string concatenation and `abspath` as the identity. -/
def outputPath (out_dir bvid : String) (oname : Option String) : String :=
  out_dir ++ "/" ++ oname.getD (bvid ++ "_new.mp4")

/-- The unique temp directory from `tempfile.mkdtemp(prefix=...)`,
parse_dash.py line 147; uniqueness across invocations is not modelled. -/
def tmpdirFor (bvid : String) : String :=
  "/tmp/parse_dash_" ++ bvid ++ "_x"

/-- The `try:` body of parse_dash.py lines 150-209, after URL resolution:
the fast path when both tracks resolved to exactly one URL, otherwise the
multi-segment path over `_download_join`. Returns the raised error or the
returned path, plus the events of the body itself. -/
def assembleBody (concatOk : Nat → Bool) (muxOk : Bool) (tmpdir output_path : String)
    (video_urls audio_urls : List PyVal) : Except PyError String × List Event :=
  if video_urls.length = 1 ∧ audio_urls.length = 1 then
    let vfile := tmpdir ++ "/video.mp4"
    let afile := tmpdir ++ "/audio.m4a"
    let evs := [Event.download (video_urls.headD .none) vfile,
                Event.download (audio_urls.headD .none) afile,
                Event.mux vfile afile output_path]
    ((if muxOk then .ok output_path else .error .calledProcessError), evs)
  else
    let vres := if video_urls.isEmpty then Option.none
      else some (_download_join (concatOk 0) tmpdir "video" video_urls)
    let aIdx := if video_urls.isEmpty then 0 else 1
    let ares := if audio_urls.isEmpty then Option.none
      else some (_download_join (concatOk aIdx) tmpdir "audio" audio_urls)
    match vres, ares with
    | some va, some aa =>
      let evs := va.2 ++ aa.2 ++ [Event.mux va.1 aa.1 output_path]
      ((if muxOk then .ok output_path else .error .calledProcessError), evs)
    | some va, Option.none => (.ok output_path, va.2 ++ [Event.move va.1 output_path])
    | Option.none, some aa =>
      (.error (.runtimeError "Could not assemble media files from dash object"), aa.2)
    | Option.none, Option.none =>
      (.error (.runtimeError "Could not assemble media files from dash object"), [])

/-- `parse_dash` from parse_dash.py lines 108-216: validate the dash
object, select the best video and audio representations, resolve their
URLs, create the WorkArea, run the assembly body, and remove the WorkArea
in the `finally:` block on every path that created it. `parse_dash` never
consults `w.outputExists`: a pre-existing output file does not change its
behaviour (ffmpeg is invoked with `-y`). -/
def parse_dash (w : World) (dash : PyVal) (bvid : String) (out_dir : String)
    (output_name : Option String) : RunResult :=
  if truthy dash = false then
    ⟨.error (.valueError "Empty dash object"), [], false, false⟩
  else
    let output_path := outputPath out_dir bvid output_name
    let preEvs := [Event.makedirs out_dir]
    if truthy (videoReps dash) = false ∨ truthy (audioReps dash) = false then
      ⟨.error (.valueError "Dash object missing video or audio arrays"), preEvs, false, false⟩
    else
      match _select_best (pyIter (videoReps dash)) with
      | .error e => ⟨.error e, preEvs, false, false⟩
      | .ok video =>
        match _select_best (pyIter (audioReps dash)) with
        | .error e => ⟨.error e, preEvs, false, false⟩
        | .ok audio =>
          let tmpdir := tmpdirFor bvid
          let body := assembleBody w.concatOk w.muxOk tmpdir output_path
            (_rep_to_urls video) (_rep_to_urls audio)
          ⟨body.1, preEvs ++ body.2 ++ [Event.rmtree tmpdir], true, false⟩

/-- Observable effects of spider.py. -/
inductive SpiderEvent where
  | makedirsPublic
  | httpGet (url : String)
  | saveFile (name : String)
  | rewriteMP3Call (bvid : String)
  | muxCall (bvid : String)
  | removeFile (name : String)

def SpiderEvent.isHttpGet : SpiderEvent → Bool
  | .httpGet _ => true
  | _ => false

def SpiderEvent.isSaveFile : SpiderEvent → Bool
  | .saveFile _ => true
  | _ => false

/-- `getMediaData` from spider.py lines 31-53: create `./public` if
missing, return immediately when `./public/<bvid>_new.mp4` already
exists, otherwise fetch both URLs, save both files, re-encode the MP3,
run the mux command and delete the intermediate MP4. -/
def getMediaData (publicExists outputExists : Bool) (videoUrl audioUrl bvid : String) : List SpiderEvent :=
  (if publicExists then [] else [SpiderEvent.makedirsPublic]) ++
  (if outputExists then [] else
    [SpiderEvent.httpGet videoUrl, SpiderEvent.httpGet audioUrl,
     SpiderEvent.saveFile (bvid ++ ".mp4"), SpiderEvent.saveFile (bvid ++ ".mp3"),
     SpiderEvent.rewriteMP3Call bvid, SpiderEvent.muxCall bvid,
     SpiderEvent.removeFile (bvid ++ ".mp4")])

example :
    (parse_dash ⟨fun _ => true, true, false⟩
      (.dict [("video", .list [.dict [("baseUrl", .str "vu")]]),
              ("audio", .list [.dict [("baseUrl", .str "au")]])])
      "BV" "public" Option.none).result = .ok "public/BV_new.mp4" := rfl

example :
    (parse_dash ⟨fun _ => true, true, false⟩
      (.dict [("video", .list [.dict [("segments", .list [.str "v1", .str "v2", .str "v3"])]]),
              ("audio", .list [.dict [("baseUrl", .str "au")]])])
      "BV" "public" Option.none).events.countP Event.isConcat = 2 := rfl

/-! Helper lemmas. -/

theorem truthy_pyGet (v : PyVal) (k : String) (h : truthy (pyGet v k) = true) :
    truthy v = true := by
  cases v with
  | dict kvs =>
    cases kvs with
    | nil => simp [pyGet, dictGetD, truthy] at h
    | cons kv rest => simp [truthy, List.isEmpty]
  | none => simp [pyGet, truthy] at h
  | str s => simp [pyGet, truthy] at h
  | int n => simp [pyGet, truthy] at h
  | list xs => simp [pyGet, truthy] at h

theorem truthy_of_pyGet_str (v : PyVal) (k s : String) (h : pyGet v k = PyVal.str s) :
    truthy v = true := by
  cases v with
  | dict kvs =>
    cases kvs with
    | nil => simp [pyGet, dictGetD] at h
    | cons kv rest => simp [truthy, List.isEmpty]
  | none => simp [pyGet] at h
  | str t => simp [pyGet] at h
  | int n => simp [pyGet] at h
  | list xs => simp [pyGet] at h

theorem countP_downloadEvents_isDownload (t n : String) (urls : List PyVal) :
    (downloadEvents t n urls).countP Event.isDownload = urls.length := by
  rw [downloadEvents, List.countP_map, ← List.enum_length]
  exact List.countP_eq_length.mpr (fun pr _ => rfl)

theorem countP_downloadEvents_isConcat (t n : String) (urls : List PyVal) :
    (downloadEvents t n urls).countP Event.isConcat = 0 := by
  rw [downloadEvents, List.countP_map]
  exact List.countP_eq_zero.mpr (fun pr _ => by simp [Event.isConcat])

theorem countP_downloadEvents_isMux (t n : String) (urls : List PyVal) :
    (downloadEvents t n urls).countP Event.isMux = 0 := by
  rw [downloadEvents, List.countP_map]
  exact List.countP_eq_zero.mpr (fun pr _ => by simp [Event.isMux])

/-- `pyMax key x xs` is an element of `x :: xs`, every element's key is at
most its key, and every element strictly before it has a strictly smaller
key: Python `max` returns the first maximum. -/
theorem pyMax_spec (key : PyVal → Int) : ∀ (xs : List PyVal) (x : PyVal),
    ∃ pre post, x :: xs = pre ++ pyMax key x xs :: post ∧
      (∀ r ∈ pre, key r < key (pyMax key x xs)) ∧
      (∀ r ∈ x :: xs, key r ≤ key (pyMax key x xs)) := by
  intro xs
  induction xs with
  | nil =>
    intro x
    refine ⟨[], [], rfl, by simp, ?_⟩
    intro r hr
    simp at hr
    simp [hr, pyMax]
  | cons y ys ih =>
    intro x
    by_cases hxy : key x < key y
    · have hm : pyMax key x (y :: ys) = pyMax key y ys := by
        simp [pyMax, List.foldl_cons, hxy]
      obtain ⟨pre, post, hdec, hpre, hall⟩ := ih y
      have hym : key y ≤ key (pyMax key y ys) := hall y (List.mem_cons_self y ys)
      refine ⟨x :: pre, post, ?_, ?_, ?_⟩
      · rw [hm]
        simpa using congrArg (fun l => x :: l) hdec
      · intro r hr
        rw [hm]
        rcases List.mem_cons.mp hr with h1 | h2
        · exact h1 ▸ lt_of_lt_of_le hxy hym
        · exact hpre r h2
      · intro r hr
        rw [hm]
        rcases List.mem_cons.mp hr with h1 | h2
        · exact h1 ▸ le_of_lt (lt_of_lt_of_le hxy hym)
        · exact hall r h2
    · have hm : pyMax key x (y :: ys) = pyMax key x ys := by
        simp [pyMax, List.foldl_cons, hxy]
      have hyx : key y ≤ key x := le_of_not_lt hxy
      obtain ⟨pre, post, hdec, hpre, hall⟩ := ih x
      have hxm : key x ≤ key (pyMax key x ys) := hall x (List.mem_cons_self x ys)
      cases pre with
      | nil =>
        simp at hdec
        refine ⟨[], y :: ys, ?_, by simp, ?_⟩
        · rw [hm, ← hdec.1]
          simp
        · intro r hr
          rw [hm]
          rcases List.mem_cons.mp hr with h1 | h2
          · exact (congrArg key h1).trans_le hxm
          · rcases List.mem_cons.mp h2 with h3 | h4
            · exact (congrArg key h3).trans_le (le_trans hyx hxm)
            · exact hall r (List.mem_cons_of_mem x h4)
      | cons p pre2 =>
        have hxp : x = p := by
          have h6 := congrArg (fun l => l.headD PyVal.none) hdec
          simpa using h6
        have hys : ys = pre2 ++ pyMax key x ys :: post := by
          have h7 := congrArg List.tail hdec
          simpa using h7
        have hxlt : key x < key (pyMax key x ys) := by
          have h9 := hpre p (List.mem_cons_self p pre2)
          rw [← hxp] at h9
          exact h9
        refine ⟨x :: y :: pre2, post, ?_, ?_, ?_⟩
        · rw [hm]
          conv_lhs => rw [hys]
          simp
        · intro r hr
          rw [hm]
          rcases List.mem_cons.mp hr with h1 | h2
          · exact (congrArg key h1).trans_lt hxlt
          · rcases List.mem_cons.mp h2 with h3 | h4
            · exact (congrArg key h3).trans_lt (lt_of_le_of_lt hyx hxlt)
            · exact hpre r (List.mem_cons_of_mem p h4)
        · intro r hr
          rw [hm]
          rcases List.mem_cons.mp hr with h1 | h2
          · exact (congrArg key h1).trans_le hxm
          · rcases List.mem_cons.mp h2 with h3 | h4
            · exact (congrArg key h3).trans_le (le_trans hyx hxm)
            · exact hall r (List.mem_cons_of_mem x (hys ▸ h4))

theorem filter_ne_nil_nonempty {l : List PyVal} {p : PyVal → Bool} {x : PyVal} {xs : List PyVal}
    (h : l.filter p = x :: xs) : l.isEmpty = false := by
  cases l with
  | nil => simp at h
  | cons a t => rfl

/-- Checks that a representation's bandwidth field is a plain int, the
domain on which the `pyInt` model of Python `int(...)` is exact. -/
def isIntBw (r : PyVal) : Bool :=
  match pyGet r "bandwidth" with
  | .int _ => true
  | _ => false

/-! Claim theorems. -/

/-- C1: for every rendition list whose bandwidth-carrying sublist is
non-empty (given as `x :: xs`), `_select_best` succeeds and returns an
element of the input list whose bandwidth key is maximal among all
bandwidth-carrying entries, and which occurs before every other entry
achieving that maximum: everything strictly before it in the filtered
list (hence in input order) has a strictly smaller bandwidth. The
`isIntBw` hypothesis confines the statement to int-valued bandwidths,
where the embedding of Python `int(...)` is exact. -/
theorem C1_select_best_max (l : List PyVal) (x : PyVal) (xs : List PyVal)
    (hfil : l.filter hasBw = x :: xs)
    (_hint : (l.filter hasBw).all isIntBw = true) :
    ∃ pre post,
      _select_best l = .ok (pyMax bwKey x xs) ∧
      l.filter hasBw = pre ++ pyMax bwKey x xs :: post ∧
      (∀ r ∈ pre, bwKey r < bwKey (pyMax bwKey x xs)) ∧
      (∀ r ∈ l.filter hasBw, bwKey r ≤ bwKey (pyMax bwKey x xs)) ∧
      pyMax bwKey x xs ∈ l := by
  obtain ⟨pre, post, hdec, hpre, hall⟩ := pyMax_spec bwKey xs x
  have hl : l.isEmpty = false := filter_ne_nil_nonempty hfil
  refine ⟨pre, post, ?_, ?_, hpre, ?_, ?_⟩
  · simp [_select_best, hl, hfil]
  · rw [hfil]
    exact hdec
  · intro r hr
    rw [hfil] at hr
    exact hall r hr
  · have hmem : pyMax bwKey x xs ∈ l.filter hasBw := by
      rw [hfil, hdec]
      exact List.mem_append.mpr (Or.inr (List.mem_cons_self _ _))
    exact List.mem_of_mem_filter hmem

def demoA : PyVal := .dict [("bandwidth", .int 5), ("id", .int 1)]

def demoB : PyVal := .dict [("bandwidth", .int 9), ("id", .int 2)]

def demoC : PyVal := .dict [("bandwidth", .int 9), ("id", .int 3)]

def demoD : PyVal := .dict [("id", .int 4)]

/-- Witness for C1 at a concrete list with a duplicated maximum: the
filtered list is `[demoA, demoB, demoC]` and `max` picks `demoB`, the
earlier of the two bandwidth-9 entries. -/
theorem C1_witness :
    ∃ pre post,
      _select_best [demoA, demoB, demoC, demoD] = .ok (pyMax bwKey demoA [demoB, demoC]) ∧
      [demoA, demoB, demoC, demoD].filter hasBw = pre ++ pyMax bwKey demoA [demoB, demoC] :: post ∧
      (∀ r ∈ pre, bwKey r < bwKey (pyMax bwKey demoA [demoB, demoC])) ∧
      (∀ r ∈ [demoA, demoB, demoC, demoD].filter hasBw, bwKey r ≤ bwKey (pyMax bwKey demoA [demoB, demoC])) ∧
      pyMax bwKey demoA [demoB, demoC] ∈ [demoA, demoB, demoC, demoD] :=
  C1_select_best_max [demoA, demoB, demoC, demoD] demoA [demoB, demoC] rfl rfl

example : pyMax bwKey demoA [demoB, demoC] = demoB := rfl

/-- C6: a rendition with a truthy direct `baseUrl` resolves to exactly
that one URL; any segment list also present is ignored, since the fast
path returns immediately. -/
theorem C6_direct_url_fast_path (rep : PyVal)
    (h : truthy (pyGet rep "baseUrl") = true) :
    _rep_to_urls rep = [pyGet rep "baseUrl"] := by
  have ht := truthy_pyGet rep "baseUrl" h
  simp [_rep_to_urls, ht, h]

def repFast : PyVal :=
  .dict [("baseUrl", .str "direct"),
         ("SegmentList", .dict [("SegmentURL", .list [.str "seg1", .str "seg2"])])]

/-- Witness for C6 at a rendition carrying both a direct URL and a
segment list. -/
theorem C6_witness : _rep_to_urls repFast = [pyGet repFast "baseUrl"] :=
  C6_direct_url_fast_path repFast rfl

/-- C10: a `baseUrl` field holding the empty string is falsy, so the
single-direct-URL fast path is not taken and resolution proceeds with the
segment-list and list-of-base-URLs handling `segListUrls`. -/
theorem C10_empty_baseUrl_falls_through (rep : PyVal)
    (h : pyGet rep "baseUrl" = PyVal.str "") :
    _rep_to_urls rep = segListUrls rep := by
  have ht : truthy rep = true := truthy_of_pyGet_str rep "baseUrl" "" h
  have hb : truthy (pyGet rep "baseUrl") = false := by rw [h]; rfl
  simp [_rep_to_urls, ht, hb]

def repEmptyBase : PyVal :=
  .dict [("baseUrl", .str ""), ("segments", .list [.str "s1", .str "s2"])]

/-- Witness for C10 at a rendition whose `baseUrl` is the empty string:
resolution falls through to the segment list. -/
theorem C10_witness : _rep_to_urls repEmptyBase = segListUrls repEmptyBase :=
  C10_empty_baseUrl_falls_through repEmptyBase rfl

example : segListUrls repEmptyBase = [.str "s1", .str "s2"] := rfl

def repC7 : PyVal :=
  .dict [("segments", .list [.dict [("foo", .int 1)]]),
         ("baseUrls", .list [.str "bu"])]

/-- C7 counterexample: `repC7` exposes a segment list (spelling
`segments`) and no direct URL; its only entry lacks a resolvable URL, so
per the claim the result should be the per-segment normalization, which
is empty. Instead `_rep_to_urls` falls through to the `baseUrls` fallback
and returns `["bu"]`. -/
theorem C7_counterexample :
    truthy (pyGet repC7 "baseUrl") = false ∧
    (pyIter (segCandidates (seglistOf repC7))).filterMap entryUrl = [] ∧
    _rep_to_urls repC7 = [PyVal.str "bu"] :=
  ⟨rfl, rfl, rfl⟩

/-- C7 amended: for a rendition with no truthy direct URL whose segment
list (under any accepted spelling) has candidate entries `cs`,
`_rep_to_urls` returns one URL per entry, normalized across the `media` /
`url` / `baseUrl` entry spellings, in list order, skipping unresolvable
entries — except that when every entry is skipped and the rendition also
carries a truthy `baseUrls` field, resolution falls through to that
fallback instead of returning the empty list (hence the final
hypothesis excluding exactly that corner). -/
theorem C7_segment_list_normalization (rep seglist : PyVal) (cs : List PyVal)
    (hrep : truthy rep = true)
    (hb : truthy (pyGet rep "baseUrl") = false)
    (hsl : seglistOf rep = seglist)
    (hne : truthy seglist = true)
    (hcand : segCandidates seglist = PyVal.list cs)
    (hfb : cs.filterMap entryUrl ≠ [] ∨ truthy (pyGet rep "baseUrls") = false) :
    _rep_to_urls rep = cs.filterMap entryUrl := by
  have hmain : _rep_to_urls rep = segListUrls rep := by
    simp [_rep_to_urls, hrep, hb]
  rw [hmain]
  simp only [segListUrls]
  rw [hsl, hne, hcand, if_pos rfl]
  cases cs with
  | nil =>
    have hbu : truthy (pyGet rep "baseUrls") = false := by
      rcases hfb with hfb | hfb
      · exact absurd rfl hfb
      · exact hfb
    rw [show truthy (PyVal.list ([] : List PyVal)) = false from rfl]
    rw [if_neg (by simp [hbu])]
    simp
  | cons c cs2 =>
    rw [show truthy (PyVal.list (c :: cs2)) = true from rfl, if_pos rfl]
    rw [show pyIter (PyVal.list (c :: cs2)) = c :: cs2 from rfl]
    have hcond : ((List.filterMap entryUrl (c :: cs2)).isEmpty &&
        truthy (pyGet rep "baseUrls")) = false := by
      rcases hfb with hfb | hfb
      · cases h3 : List.filterMap entryUrl (c :: cs2) with
        | nil => exact absurd h3 hfb
        | cons d ds => rfl
      · rw [hfb, Bool.and_false]
    rw [hcond, if_neg (by simp)]

def csSeg : List PyVal :=
  [.dict [("media", .str "m1")], .dict [("url", .str "u2")],
   .dict [("baseUrl", .str "b3")], .dict [("junk", .int 1)], .str "s4"]

def repSeg : PyVal := .dict [("segmentList", .dict [("segmentURL", .list csSeg)])]

example : csSeg.filterMap entryUrl = [.str "m1", .str "u2", .str "b3", .str "s4"] := rfl

/-- Witness for the amended C7 at a rendition whose segment list uses the
`segmentList` / `segmentURL` spellings and mixes all three entry field
names, one unresolvable entry and one bare-string entry. -/
theorem C7_witness : _rep_to_urls repSeg = csSeg.filterMap entryUrl :=
  C7_segment_list_normalization repSeg (.dict [("segmentURL", .list csSeg)]) csSeg
    rfl rfl rfl rfl rfl
    (Or.inl (by
      rw [show csSeg.filterMap entryUrl = [PyVal.str "m1", PyVal.str "u2", PyVal.str "b3", PyVal.str "s4"] from rfl]
      simp))

/-- Reduction of `parse_dash` once validation and selection succeed: the
outcome is the assembly body's outcome, bracketed by the makedirs event
and the final rmtree cleanup event, with the WorkArea created and then
removed. Shared by the claims about the assembly paths. -/
theorem parse_dash_ok_select (w : World) (dash v a : PyVal) (bvid out_dir : String)
    (oname : Option String)
    (hd : truthy dash = true)
    (hvr : truthy (videoReps dash) = true)
    (har : truthy (audioReps dash) = true)
    (hsv : _select_best (pyIter (videoReps dash)) = .ok v)
    (hsa : _select_best (pyIter (audioReps dash)) = .ok a) :
    parse_dash w dash bvid out_dir oname =
      ⟨(assembleBody w.concatOk w.muxOk (tmpdirFor bvid) (outputPath out_dir bvid oname)
          (_rep_to_urls v) (_rep_to_urls a)).1,
       Event.makedirs out_dir ::
         (assembleBody w.concatOk w.muxOk (tmpdirFor bvid) (outputPath out_dir bvid oname)
           (_rep_to_urls v) (_rep_to_urls a)).2 ++ [Event.rmtree (tmpdirFor bvid)],
       true, false⟩ := by
  simp [parse_dash, hd, hvr, har, hsv, hsa]

/-- C4: when both selected renditions resolve to exactly one URL (the
fast path) and the mux subprocess reports a non-zero exit, `parse_dash`
raises `CalledProcessError` (the spec's MuxError); the WorkArea was
created, the `finally:` cleanup ran (the trace ends with its rmtree
event) and the WorkArea no longer exists after the call. -/
theorem C4_mux_failure_cleanup (w : World) (dash v a u b : PyVal) (bvid out_dir : String)
    (oname : Option String)
    (hd : truthy dash = true)
    (hvr : truthy (videoReps dash) = true)
    (har : truthy (audioReps dash) = true)
    (hsv : _select_best (pyIter (videoReps dash)) = .ok v)
    (hsa : _select_best (pyIter (audioReps dash)) = .ok a)
    (hv1 : _rep_to_urls v = [u])
    (ha1 : _rep_to_urls a = [b])
    (hm : w.muxOk = false) :
    (parse_dash w dash bvid out_dir oname).result = .error .calledProcessError ∧
    (parse_dash w dash bvid out_dir oname).tmpCreated = true ∧
    (parse_dash w dash bvid out_dir oname).tmpExists = false ∧
    (parse_dash w dash bvid out_dir oname).events.getLast? = some (Event.rmtree (tmpdirFor bvid)) := by
  rw [parse_dash_ok_select w dash v a bvid out_dir oname hd hvr har hsv hsa, hv1, ha1]
  simp [assembleBody, hm, List.getLast?_append]

def wMuxFail : World := ⟨fun _ => true, false, false⟩

def vRepFast : PyVal := .dict [("baseUrl", .str "vu")]

def aRepFast : PyVal := .dict [("baseUrl", .str "au")]

def dashFast : PyVal := .dict [("video", .list [vRepFast]), ("audio", .list [aRepFast])]

/-- Witness for C4 at a concrete fast-path rendition set with a failing
mux oracle. -/
theorem C4_witness :
    (parse_dash wMuxFail dashFast "BV" "public" Option.none).result = .error .calledProcessError ∧
    (parse_dash wMuxFail dashFast "BV" "public" Option.none).tmpCreated = true ∧
    (parse_dash wMuxFail dashFast "BV" "public" Option.none).tmpExists = false ∧
    (parse_dash wMuxFail dashFast "BV" "public" Option.none).events.getLast? = some (Event.rmtree (tmpdirFor "BV")) :=
  C4_mux_failure_cleanup wMuxFail dashFast vRepFast aRepFast (.str "vu") (.str "au")
    "BV" "public" Option.none rfl rfl rfl rfl rfl rfl rfl rfl

/-- C5: an empty dash object, or one whose video or audio rendition list
is falsy (missing or empty), makes `parse_dash` raise ValueError (the
spec's InvalidInputError) with no download event in the trace — the
failure precedes any network request — and without creating the
WorkArea. -/
theorem C5_invalid_input_no_network (w : World) (dash : PyVal) (bvid out_dir : String)
    (oname : Option String)
    (h : truthy dash = false ∨ truthy (videoReps dash) = false ∨ truthy (audioReps dash) = false) :
    (∃ msg, (parse_dash w dash bvid out_dir oname).result = .error (.valueError msg)) ∧
    (parse_dash w dash bvid out_dir oname).events.countP Event.isDownload = 0 ∧
    (parse_dash w dash bvid out_dir oname).tmpCreated = false := by
  by_cases hd : truthy dash = false
  · exact ⟨⟨"Empty dash object", by simp [parse_dash, hd]⟩,
      by simp [parse_dash, hd], by simp [parse_dash, hd]⟩
  · have hd2 : truthy dash = true := by
      cases htd : truthy dash
      · exact absurd htd hd
      · rfl
    have hva : truthy (videoReps dash) = false ∨ truthy (audioReps dash) = false := by
      rcases h with h | h | h
      · exact absurd h hd
      · exact Or.inl h
      · exact Or.inr h
    rcases hva with hx | hx <;>
      exact ⟨⟨"Dash object missing video or audio arrays", by simp [parse_dash, hd2, hx]⟩,
        by simp [parse_dash, hd2, hx, Event.isDownload],
        by simp [parse_dash, hd2, hx]⟩

def wAll : World := ⟨fun _ => true, true, false⟩

def dashEmptyVideo : PyVal :=
  .dict [("video", .list []), ("audio", .list [aRepFast])]

/-- Witness for C5 at a rendition set with an empty video list. -/
theorem C5_witness :
    (∃ msg, (parse_dash wAll dashEmptyVideo "BV" "public" Option.none).result = .error (.valueError msg)) ∧
    (parse_dash wAll dashEmptyVideo "BV" "public" Option.none).events.countP Event.isDownload = 0 ∧
    (parse_dash wAll dashEmptyVideo "BV" "public" Option.none).tmpCreated = false :=
  C5_invalid_input_no_network wAll dashEmptyVideo "BV" "public" Option.none (Or.inr (Or.inl rfl))

def vRepSegs : PyVal := .dict [("segments", .list [.str "v1", .str "v2", .str "v3"])]

def dash31 : PyVal := .dict [("video", .list [vRepSegs]), ("audio", .list [aRepFast])]

/-- C2 counterexample: on a rendition set whose selected video resolves
to three URLs and audio to one, the concatenation subprocess is invoked
twice — the multi-segment path funnels the single-URL audio track through
`_download_join` as well — not exactly once for the video track only, as
the claim states. -/
theorem C2_counterexample :
    (parse_dash wAll dash31 "BV" "public" Option.none).events.countP Event.isConcat = 2 ∧
    ¬ ((parse_dash wAll dash31 "BV" "public" Option.none).events.countP Event.isConcat = 1) :=
  ⟨rfl, by decide⟩

/-- C2 amended: when the selected video rendition resolves to three URLs
and the selected audio rendition to one, `parse_dash` downloads exactly
four files (three video segments and the one audio file), invokes the
concatenation subprocess exactly once per non-empty track — twice in
total, for video and for audio — and then invokes the mux subprocess
exactly once, with as inputs the two tracks' `_download_join` results;
in particular when both concatenations succeed, the mux combines the
joined video file with the joined audio file. -/
theorem C2_three_plus_one_counts (w : World) (dash v a u1 u2 u3 b : PyVal)
    (bvid out_dir : String) (oname : Option String)
    (hd : truthy dash = true)
    (hvr : truthy (videoReps dash) = true)
    (har : truthy (audioReps dash) = true)
    (hsv : _select_best (pyIter (videoReps dash)) = .ok v)
    (hsa : _select_best (pyIter (audioReps dash)) = .ok a)
    (hv3 : _rep_to_urls v = [u1, u2, u3])
    (ha1 : _rep_to_urls a = [b]) :
    (parse_dash w dash bvid out_dir oname).events.countP Event.isDownload = 4 ∧
    (parse_dash w dash bvid out_dir oname).events.countP Event.isConcat = 2 ∧
    (parse_dash w dash bvid out_dir oname).events.countP Event.isMux = 1 ∧
    Event.mux (_download_join (w.concatOk 0) (tmpdirFor bvid) "video" [u1, u2, u3]).1
        (_download_join (w.concatOk 1) (tmpdirFor bvid) "audio" [b]).1
        (outputPath out_dir bvid oname) ∈ (parse_dash w dash bvid out_dir oname).events ∧
    (w.concatOk 0 = true → w.concatOk 1 = true →
      Event.mux (tmpdirFor bvid ++ "/" ++ "video" ++ "_joined.mp4")
          (tmpdirFor bvid ++ "/" ++ "audio" ++ "_joined.mp4")
          (outputPath out_dir bvid oname) ∈ (parse_dash w dash bvid out_dir oname).events) := by
  rw [parse_dash_ok_select w dash v a bvid out_dir oname hd hvr har hsv hsa, hv3, ha1]
  simp only [assembleBody, _download_join]
  refine ⟨?_, ?_, ?_, ?_, ?_⟩
  · simp [List.countP_cons, List.countP_append, Event.isDownload,
      countP_downloadEvents_isDownload]
  · simp [List.countP_cons, List.countP_append, Event.isConcat,
      countP_downloadEvents_isConcat]
  · simp [List.countP_cons, List.countP_append, Event.isMux,
      countP_downloadEvents_isMux]
  · simp [_download_join]
  · intro hc0 hc1
    simp [hc0, hc1]

/-- Witness for the amended C2 at the concrete three-segment-video plus
single-URL-audio rendition set: four downloads, two concat calls, one mux
call combining the joined video file with the joined audio file. -/
theorem C2_witness :
    (parse_dash wAll dash31 "BV" "public" Option.none).events.countP Event.isDownload = 4 ∧
    (parse_dash wAll dash31 "BV" "public" Option.none).events.countP Event.isConcat = 2 ∧
    (parse_dash wAll dash31 "BV" "public" Option.none).events.countP Event.isMux = 1 ∧
    Event.mux (_download_join (wAll.concatOk 0) (tmpdirFor "BV") "video" [.str "v1", .str "v2", .str "v3"]).1
        (_download_join (wAll.concatOk 1) (tmpdirFor "BV") "audio" [.str "au"]).1
        (outputPath "public" "BV" Option.none) ∈ (parse_dash wAll dash31 "BV" "public" Option.none).events ∧
    (wAll.concatOk 0 = true → wAll.concatOk 1 = true →
      Event.mux (tmpdirFor "BV" ++ "/" ++ "video" ++ "_joined.mp4")
          (tmpdirFor "BV" ++ "/" ++ "audio" ++ "_joined.mp4")
          (outputPath "public" "BV" Option.none) ∈ (parse_dash wAll dash31 "BV" "public" Option.none).events) :=
  C2_three_plus_one_counts wAll dash31 vRepSegs aRepFast (.str "v1") (.str "v2") (.str "v3") (.str "au")
    "BV" "public" Option.none rfl rfl rfl rfl rfl rfl rfl

/-- C9: in the multi-segment path, when the selected video rendition
resolves to zero URLs while the audio rendition resolves to one or more,
`parse_dash` downloads and joins the audio segments, yet fails with the
RuntimeError "Could not assemble media files from dash object" (the
spec's AssemblyError): an audio-only joined file never becomes the final
output, no mux happens, and the WorkArea holding the downloaded audio is
removed. -/
theorem C9_audio_only_discarded (w : World) (dash v a b : PyVal) (bs : List PyVal)
    (bvid out_dir : String) (oname : Option String)
    (hd : truthy dash = true)
    (hvr : truthy (videoReps dash) = true)
    (har : truthy (audioReps dash) = true)
    (hsv : _select_best (pyIter (videoReps dash)) = .ok v)
    (hsa : _select_best (pyIter (audioReps dash)) = .ok a)
    (hv0 : _rep_to_urls v = [])
    (ha : _rep_to_urls a = b :: bs) :
    (parse_dash w dash bvid out_dir oname).result =
      .error (.runtimeError "Could not assemble media files from dash object") ∧
    (parse_dash w dash bvid out_dir oname).events.countP Event.isDownload = (b :: bs).length ∧
    (parse_dash w dash bvid out_dir oname).events.countP Event.isConcat = 1 ∧
    (parse_dash w dash bvid out_dir oname).events.countP Event.isMux = 0 ∧
    (parse_dash w dash bvid out_dir oname).tmpCreated = true ∧
    (parse_dash w dash bvid out_dir oname).tmpExists = false := by
  rw [parse_dash_ok_select w dash v a bvid out_dir oname hd hvr har hsv hsa, hv0, ha]
  simp only [assembleBody, _download_join]
  refine ⟨?_, ?_, ?_, ?_, ?_, ?_⟩ <;>
    simp [List.countP_cons, List.countP_append, Event.isDownload, Event.isConcat, Event.isMux,
      countP_downloadEvents_isDownload, countP_downloadEvents_isConcat, countP_downloadEvents_isMux]

def vRepUnresolvable : PyVal := .dict [("junk", .int 1)]

def dashNoVideoUrls : PyVal :=
  .dict [("video", .list [vRepUnresolvable]), ("audio", .list [aRepFast])]

/-- Witness for C9 at a rendition set whose video rendition carries no
resolvable source field. -/
theorem C9_witness :
    (parse_dash wAll dashNoVideoUrls "BV" "public" Option.none).result =
      .error (.runtimeError "Could not assemble media files from dash object") ∧
    (parse_dash wAll dashNoVideoUrls "BV" "public" Option.none).events.countP Event.isDownload = ([PyVal.str "au"] : List PyVal).length ∧
    (parse_dash wAll dashNoVideoUrls "BV" "public" Option.none).events.countP Event.isConcat = 1 ∧
    (parse_dash wAll dashNoVideoUrls "BV" "public" Option.none).events.countP Event.isMux = 0 ∧
    (parse_dash wAll dashNoVideoUrls "BV" "public" Option.none).tmpCreated = true ∧
    (parse_dash wAll dashNoVideoUrls "BV" "public" Option.none).tmpExists = false :=
  C9_audio_only_discarded wAll dashNoVideoUrls vRepUnresolvable aRepFast (.str "au") []
    "BV" "public" Option.none rfl rfl rfl rfl rfl rfl rfl

/-- C8: when a multi-segment track's concatenation subprocess fails
(here: video, with at least two segments), `parse_dash` raises no error
for that track — `_download_join` returns the first downloaded part in
place of the joined file — and assembly proceeds: the final mux consumes
the first video part as the video input. The last conjunct is the
track-generic fact that on concat failure, the result of
`_download_join` is always the first part of that track. -/
theorem C8_concat_failure_first_segment (w : World) (dash v a u1 u2 b : PyVal)
    (us bs : List PyVal) (bvid out_dir : String) (oname : Option String)
    (hd : truthy dash = true)
    (hvr : truthy (videoReps dash) = true)
    (har : truthy (audioReps dash) = true)
    (hsv : _select_best (pyIter (videoReps dash)) = .ok v)
    (hsa : _select_best (pyIter (audioReps dash)) = .ok a)
    (hv : _rep_to_urls v = u1 :: u2 :: us)
    (ha : _rep_to_urls a = b :: bs)
    (hc0 : w.concatOk 0 = false)
    (hc1 : w.concatOk 1 = true)
    (hm : w.muxOk = true) :
    (parse_dash w dash bvid out_dir oname).result = .ok (outputPath out_dir bvid oname) ∧
    Event.mux (partName (tmpdirFor bvid) "video" 0) (tmpdirFor bvid ++ "/" ++ "audio" ++ "_joined.mp4")
        (outputPath out_dir bvid oname) ∈ (parse_dash w dash bvid out_dir oname).events ∧
    (∀ urls : List PyVal, ∀ tmpdir name : String,
      (_download_join false tmpdir name urls).1 = partName tmpdir name 0) := by
  rw [parse_dash_ok_select w dash v a bvid out_dir oname hd hvr har hsv hsa, hv, ha]
  simp only [assembleBody, _download_join]
  refine ⟨?_, ?_, fun urls tmpdir name => rfl⟩ <;>
    simp [hc0, hc1, hm]

def wConcatFail : World := ⟨fun n => n != 0, true, false⟩

def vRepTwoSegs : PyVal := .dict [("segments", .list [.str "w1", .str "w2"])]

def dashTwoSeg : PyVal := .dict [("video", .list [vRepTwoSegs]), ("audio", .list [aRepFast])]

/-- Witness for C8 at a two-segment video rendition with a failing video
concat oracle and succeeding audio concat and mux. -/
theorem C8_witness :
    (parse_dash wConcatFail dashTwoSeg "BV" "public" Option.none).result = .ok (outputPath "public" "BV" Option.none) ∧
    Event.mux (partName (tmpdirFor "BV") "video" 0) (tmpdirFor "BV" ++ "/" ++ "audio" ++ "_joined.mp4")
        (outputPath "public" "BV" Option.none) ∈ (parse_dash wConcatFail dashTwoSeg "BV" "public" Option.none).events ∧
    (∀ urls : List PyVal, ∀ tmpdir name : String,
      (_download_join false tmpdir name urls).1 = partName tmpdir name 0) :=
  C8_concat_failure_first_segment wConcatFail dashTwoSeg vRepTwoSegs aRepFast
    (.str "w1") (.str "w2") (.str "au") [] [] "BV" "public" Option.none
    rfl rfl rfl rfl rfl rfl rfl rfl rfl rfl

def setOutputExists (w : World) (b : Bool) : World := ⟨w.concatOk, w.muxOk, b⟩

def wOutExists : World := ⟨fun _ => true, true, true⟩

/-- C3 counterexample: with the final output already present
(`wOutExists.outputExists = true`), the Assembler `parse_dash` does not
skip the assembly: it still performs two downloads and invokes the mux
subprocess — whose overwrite flag replaces the existing output — and
returns normally, contradicting the claimed skip behaviour (no downloads,
output left unchanged). -/
theorem C3_counterexample :
    wOutExists.outputExists = true ∧
    (parse_dash wOutExists dashFast "BV" "public" Option.none).result = .ok (outputPath "public" "BV" Option.none) ∧
    ¬ ((parse_dash wOutExists dashFast "BV" "public" Option.none).events.countP Event.isDownload = 0) ∧
    (parse_dash wOutExists dashFast "BV" "public" Option.none).events.countP Event.isMux = 1 :=
  ⟨rfl, rfl, by decide, rfl⟩

/-- C3 amended: no operation errors on pre-existing output, but only the
two-URL driver `getMediaData` (spider.py) skips: when the output exists
it performs no HTTP request and writes no file. The Assembler
`parse_dash` ignores output existence entirely — its behaviour is
identical whether or not the output pre-exists (it re-downloads and
overwrites via the muxer's overwrite flag). -/
theorem C3_preexisting_output (w : World) (dash : PyVal) (bvid out_dir : String)
    (oname : Option String) (pe : Bool) (videoUrl audioUrl bv : String) :
    (getMediaData pe true videoUrl audioUrl bv).countP SpiderEvent.isHttpGet = 0 ∧
    (getMediaData pe true videoUrl audioUrl bv).countP SpiderEvent.isSaveFile = 0 ∧
    parse_dash (setOutputExists w true) dash bvid out_dir oname =
      parse_dash (setOutputExists w false) dash bvid out_dir oname := by
  refine ⟨?_, ?_, rfl⟩ <;> cases pe <;> rfl
